import Mathlib

/-
Verification of the althea-l1-relayer relay pipeline (src/main.rs).

The relayer is a single-file program: it polls orchestrator services for
pending gasless transactions, decodes and validates the embedded tip,
estimates profitability against a price oracle and current gas data, and
submits profitable transactions to the chain.

The shallow embedding below models the pure decision logic directly from
the source.  Network interactions (HTTP fetches, chain RPC calls) are
modelled by explicit result values carried in an environment record, and
the sequence of chain-facing effects a run performs is returned alongside
the result, so that claims about "no broadcast happened" or "no gas
simulation happened" become statements about the returned effect list.

Machine integers: the source uses Uint256 (checked 256-bit arithmetic) and
u8/u128.  These are embedded as Nat; where a claim quantifies over values
whose 256-bit arithmetic could overflow in the source, the theorem carries
an explicit no-overflow bound.
-/

namespace IfiRelayer

/-- Byte sequences are lists of Nat; each element stands for one u8 of the
Rust Vec of bytes (so concrete inputs use values below 256).  This folds a
big-endian byte sequence into the number it denotes. -/
def bytesToNat (bs : List Nat) : Nat :=
  bs.foldl (fun acc b => acc * 256 + b) 0

/-- Modelled from the spec: the external clarity ABI primitive
parse_address reads one 32-byte ABI word at the given offset with the
20-byte address right-aligned in it (spec section 3, tip invariant); a
buffer too short for the word is a decode failure. -/
def parse_address (data : List Nat) (pos : Nat) : Except String Nat :=
  if data.length < pos + 32 then .error "insufficient bytes for address"
  else .ok (bytesToNat ((data.drop (pos + 12)).take 20))

/-- Modelled from the spec: the external clarity ABI primitive parse_u128
reads one 32-byte ABI word at the given offset as an unsigned integer of
at most 128 bits (spec section 3, tip invariant); a buffer too short for
the word, or a word whose high 16 bytes are not all zero (a value
exceeding 128 bits), is a decode failure. -/
def parse_u128 (data : List Nat) (pos : Nat) : Except String Nat :=
  if data.length < pos + 32 then .error "insufficient bytes for u128"
  else if ((data.drop pos).take 16).all (fun b => b == 0) then
    .ok (bytesToNat ((data.drop (pos + 16)).take 16))
  else .error "value too large for u128"

/-- Reserved sink address 0x100 (main.rs line 19), as its numeric
160-bit value. -/
def OX_100_ADDRESS : Nat := 0x100

/-- Reserved sink address 0x200 (main.rs line 20), as its numeric
160-bit value. -/
def OX_200_ADDRESS : Nat := 0x200

/-- Receiver policy, from is_valid_receiver_address (main.rs lines
292-297): the receiver is accepted iff it equals one of the two reserved
sink addresses or the relayer address.  Addresses are embedded as Nat. -/
def is_valid_receiver_address (receiver our_address : Nat) : Bool :=
  receiver == OX_100_ADDRESS || receiver == OX_200_ADDRESS || receiver == our_address

/-- Outcome of the HTTP interaction performed by fetch_value_in_gas_token
(main.rs lines 171-194).  The success constructor carries the tip value in
gas-token units, i.e. the integer the source computes from the fetched f64
price and the tip amount (the float multiplication and truncating cast are
abstracted into this value; every claim about the estimator quantifies
over the resulting value, not over the float intermediate). -/
inductive OracleFetchResult where
  | transportError (msg : String)
  | httpFailure (status : Nat) (body : String)
  | malformedBody (msg : String)
  | success (value : Nat)
deriving DecidableEq, Repr

/-- Price oracle client, from fetch_value_in_gas_token (main.rs lines
171-194): a transport error, a non-success HTTP status (the body text
becomes the error), or a body that fails to parse as an f64 each yield an
error; a successful fetch yields the computed tip value in gas-token
units.  The token address and amount parameters shape the request in the
source and are kept for signature fidelity. -/
def fetch_value_in_gas_token (oracle : OracleFetchResult)
    (_tokenAddr _amount : Nat) : Except String Nat :=
  match oracle with
  | .transportError m => .error m
  | .httpFailure _ body => .error body
  | .malformedBody m => .error m
  | .success v => .ok v

/-- Profitability estimator, from estimate_if_transaction_is_profitable
(main.rs lines 262-288): compute gas_estimate = gas_used * gas_price; on
any oracle failure return false; otherwise add a 10 percent margin
(integer floor division) and report profitable iff the tip value strictly
exceeds the margin-adjusted estimate. -/
def estimate_if_transaction_is_profitable (tip tip_token gas_used gas_price : Nat)
    (oracle : OracleFetchResult) : Bool :=
  let gas_estimate := gas_used * gas_price
  match fetch_value_in_gas_token oracle tip_token tip with
  | .error _ => false
  | .ok value =>
    let gas_estimate := gas_estimate + gas_estimate / 10
    if value > gas_estimate then true else false

/-- Pending gasless transaction as fetched from an orchestrator
(main.rs lines 23-32). -/
structure GaslessTransaction where
  chain_id : Nat
  callpath : Nat
  cmd : List Nat
  conds : List Nat
  tip : List Nat
  sig : List Nat
  submitted_at : Nat
deriving DecidableEq, Repr

/-- Chain-facing effects a relay_transaction run can perform, in the order
the source performs them: call preparation (user_cmd_relayer_tx),
eth_estimate_gas, eth_gas_price, the price oracle fetch inside the
estimator, send_prepared_transaction, wait_for_transaction,
eth_get_transaction_receipt. -/
inductive Effect where
  | prepareCall
  | estimateGas
  | gasPrice
  | oracleFetch
  | broadcast
  | waitConfirm
  | getReceipt
deriving DecidableEq, Repr

/-- Results of the external chain and oracle interactions for one
relay_transaction run: the prepared call (user_cmd_relayer_tx), gas
estimation, gas price fetch, oracle fetch, broadcast, and confirmation
wait, each as the value the corresponding await returns in the source. -/
structure ChainEnv where
  prepare : Except String Unit
  estimateGas : Except String Nat
  gasPrice : Except String Nat
  oracle : OracleFetchResult
  sendTx : Except String Nat
  waitForTx : Except String Unit
deriving Repr

/-- The part of relay_transaction after the tip is decoded and the
receiver accepted (main.rs lines 335-405): prepare the call, simulate gas,
fetch the gas price, gate on profitability, then broadcast and wait for
confirmation; any external failure propagates as an error, an unprofitable
transaction is skipped with Ok None before any broadcast. -/
def relay_after_decode (env : ChainEnv) (tip_token tip_amount : Nat) :
    Except String (Option Nat) × List Effect :=
  match env.prepare with
  | .error e => (.error e, [.prepareCall])
  | .ok _ =>
    match env.estimateGas with
    | .error e => (.error e, [.prepareCall, .estimateGas])
    | .ok gas_used =>
      match env.gasPrice with
      | .error e => (.error e, [.prepareCall, .estimateGas, .gasPrice])
      | .ok gas_price =>
        if estimate_if_transaction_is_profitable tip_amount tip_token gas_used gas_price
            env.oracle then
          match env.sendTx with
          | .error e =>
            (.error e, [.prepareCall, .estimateGas, .gasPrice, .oracleFetch, .broadcast])
          | .ok pending_tx =>
            match env.waitForTx with
            | .ok _ =>
              (.ok (some pending_tx),
                [.prepareCall, .estimateGas, .gasPrice, .oracleFetch, .broadcast,
                  .waitConfirm, .getReceipt])
            | .error e =>
              (.error e,
                [.prepareCall, .estimateGas, .gasPrice, .oracleFetch, .broadcast,
                  .waitConfirm])
        else (.ok none, [.prepareCall, .estimateGas, .gasPrice, .oracleFetch])

/-- Relay pipeline for one request, from relay_transaction (main.rs lines
299-406): reject an empty cmd with an error; skip an empty tip with
Ok None; decode the three tip words, propagating any decode failure as an
error; skip an unaccepted receiver with Ok None; otherwise continue with
the chain-facing stages.  The second component records which chain-facing
effects were performed. -/
def relay_transaction (env : ChainEnv) (our_address : Nat) (tx : GaslessTransaction) :
    Except String (Option Nat) × List Effect :=
  if tx.cmd = [] then (.error "Empty transaction command data", [])
  else if tx.tip = [] then (.ok none, [])
  else
    match parse_address tx.tip 0 with
    | .error e => (.error e, [])
    | .ok token =>
      match parse_u128 tx.tip 32 with
      | .error e => (.error e, [])
      | .ok amount =>
        match parse_address tx.tip 64 with
        | .error e => (.error e, [])
        | .ok receiver =>
          if is_valid_receiver_address receiver our_address then
            relay_after_decode env token amount
          else (.ok none, [])

/-- Outcome of the HTTP fetch of pending transactions from one resolved
orchestrator address (main.rs lines 220-236): a transport error from the
send, a non-success HTTP status (the body text becomes the error), a body
that fails to decode as JSON, or a successfully decoded list of pending
transactions. -/
inductive FetchResult where
  | transportError (msg : String)
  | nonSuccess (status : Nat) (body : String)
  | malformedJson (msg : String)
  | success (txs : List GaslessTransaction)
deriving DecidableEq, Repr

/-- Poller for one orchestrator URL, from process_pending_transactions
(main.rs lines 198-259), over the outcomes of the per-resolved-address
fetches in resolution order.  A fetch failure at an address returns the
error immediately (the source uses the question-mark operator on the send
and body awaits and an explicit return Err on a non-success status), so
later addresses are not visited.  A successful fetch relays every decoded
transaction in array order; each per-request result is recorded in the
second component and never alters control flow (the source matches on it
and only logs). -/
def process_pending_transactions (renv : ChainEnv) (our_address : Nat) :
    List FetchResult → Except String Unit × List (Except String (Option Nat))
  | [] => (.ok (), [])
  | .transportError m :: _ => (.error m, [])
  | .nonSuccess _ body :: _ => (.error body, [])
  | .malformedJson m :: _ => (.error m, [])
  | .success txs :: rest =>
    ((process_pending_transactions renv our_address rest).1,
      txs.map (fun tx => (relay_transaction renv our_address tx).1) ++
        (process_pending_transactions renv our_address rest).2)

/-- One cycle of the relay loop, from the loop body in main (main.rs lines
143-161): every configured orchestrator URL is polled in order; an error
from one poll is only logged (the if-let in the source), so each
orchestrator is polled regardless of the results of earlier ones. -/
def relay_loop_cycle (renv : ChainEnv) (our_address : Nat)
    (orchestrators : List (List FetchResult)) :
    List (Except String Unit × List (Except String (Option Nat))) :=
  orchestrators.map (fun fetches => process_pending_transactions renv our_address fetches)

/-- Configuration options relevant to timing, from RelayerOpts (main.rs
lines 34-100): poll interval, confirmation block count, and the timeout
option, in seconds. -/
structure RelayerOpts where
  poll_interval : Nat
  confirmation_blocks : Nat
  timeout : Nat
deriving DecidableEq, Repr

/-- The CLI default values: poll_interval 5, confirmation_blocks 12,
timeout 10 (main.rs lines 63-91). -/
def defaultRelayerOpts : RelayerOpts := ⟨5, 12, 10⟩

/-- Request timeout of the Web3 client, in seconds: main (line 120)
constructs the client with the literal Duration::from_secs(30); the
configured timeout option is not consulted. -/
def web3_client_timeout_secs (_opts : RelayerOpts) : Nat := 30

/-- Timeout passed to wait_for_transaction (main.rs line 386): the source
passes web3.get_timeout(), the timeout the client was constructed with. -/
def wait_for_transaction_timeout_secs (opts : RelayerOpts) : Nat :=
  web3_client_timeout_secs opts

/-- The blocks_to_wait argument passed to wait_for_transaction (main.rs
line 386): the source passes the literal None; the configured
confirmation_blocks option is not consulted. -/
def wait_for_transaction_blocks_to_wait (_opts : RelayerOpts) : Option Nat := none

/-! Claim theorems. -/

/-- Claim C1: for every tip value v, gas estimate g and gas price p
(within the 256-bit range the checked source arithmetic supports), the
profitability estimator computes the threshold as g * p + (g * p) / 10
with integer floor division and reports profitable iff v strictly exceeds
it; with gas_used 21000 and gas_price 20000000000 the threshold is
462000000000000, a tip value of exactly 462000000000000 is not profitable
and 462000000000001 is profitable. -/
theorem estimate_profitability_threshold :
    (∀ v t tok g p, v < 2 ^ 256 → g * p + g * p / 10 < 2 ^ 256 →
      (estimate_if_transaction_is_profitable t tok g p (.success v) = true ↔
        v > g * p + g * p / 10)) ∧
    (∀ t tok, 21000 * 20000000000 + 21000 * 20000000000 / 10 = 462000000000000 ∧
      estimate_if_transaction_is_profitable t tok 21000 20000000000
        (.success 462000000000000) = false ∧
      estimate_if_transaction_is_profitable t tok 21000 20000000000
        (.success 462000000000001) = true) := by
  constructor
  · intro v t tok g p _ _
    by_cases h : v > g * p + g * p / 10 <;>
      simp [estimate_if_transaction_is_profitable, fetch_value_in_gas_token, h]
  · intro t tok
    refine ⟨by norm_num, ?_, ?_⟩ <;>
      simp [estimate_if_transaction_is_profitable, fetch_value_in_gas_token]

/-- Witness for C1: the boundary evaluation at tip value 462000000000001,
gas_used 21000, gas_price 20000000000, obtained from the quantified
threshold characterisation. -/
theorem estimate_profitability_threshold_witness :
    estimate_if_transaction_is_profitable 0 0 21000 20000000000
      (.success 462000000000001) = true :=
  (estimate_profitability_threshold.1 462000000000001 0 0 21000 20000000000
    (by norm_num) (by norm_num)).mpr (by norm_num)

/-- Claim C2: every failure mode of the price-oracle fetch (transport
error, non-success HTTP status, malformed body) makes the estimator
report false, for every tip, token, gas estimate and gas price; and at
the pipeline level an oracle failure yields the skip outcome Ok none
with no broadcast effect, never an error. -/
theorem estimate_oracle_failure_not_profitable :
    (∀ t tok g p,
      (∀ m, estimate_if_transaction_is_profitable t tok g p (.transportError m) = false) ∧
      (∀ s b, estimate_if_transaction_is_profitable t tok g p (.httpFailure s b) = false) ∧
      (∀ m, estimate_if_transaction_is_profitable t tok g p (.malformedBody m) = false)) ∧
    (∀ (gu gp : Nat) (stx : Except String Nat) (w : Except String Unit)
      (m : String) (t tok : Nat),
      relay_after_decode ⟨.ok (), .ok gu, .ok gp, .transportError m, stx, w⟩ tok t =
        (.ok none, [.prepareCall, .estimateGas, .gasPrice, .oracleFetch])) := by
  refine ⟨fun t tok g p => ⟨fun m => rfl, fun s b => rfl, fun m => rfl⟩, ?_⟩
  intro gu gp stx w m t tok
  rfl

/-- Claim C3: the receiver policy accepts a receiver iff it equals the
relayer address or one of the two reserved sink addresses 0x100 and
0x200; every other address is rejected. -/
theorem is_valid_receiver_address_iff :
    ∀ receiver our_address : Nat,
      is_valid_receiver_address receiver our_address = true ↔
        (receiver = our_address ∨ receiver = 0x100 ∨ receiver = 0x200) := by
  intro r a
  simp only [is_valid_receiver_address, OX_100_ADDRESS, OX_200_ADDRESS,
    Bool.or_eq_true, beq_iff_eq]
  tauto

/-- Sample environment for concrete witness evaluations: every chain
interaction succeeds, gas estimate 21000, gas price 20000000000, oracle
value 0. -/
def sampleEnv : ChainEnv :=
  ⟨.ok (), .ok 21000, .ok 20000000000, .success 0, .ok 7, .ok ()⟩

/-- A well-formed 96-byte tip of all zero bytes: token 0, amount 0,
receiver 0. -/
def zeroTip : List Nat := List.replicate 96 0

/-- A 96-byte tip whose receiver word decodes to address 5. -/
def badReceiverTip : List Nat := List.replicate 95 0 ++ [5]

/-- A 96-byte tip whose amount word has a nonzero high byte, so the
amount exceeds 128 bits. -/
def bigAmountTip : List Nat := List.replicate 32 0 ++ 1 :: List.replicate 63 0

/-- Request with empty cmd and a nonempty malformed tip. -/
def emptyCmdTx : GaslessTransaction := ⟨417834, 1, [], [], [1, 2, 3], [], 0⟩

/-- Request with an empty tip. -/
def emptyTipTx : GaslessTransaction := ⟨417834, 1, [1], [], [], [], 0⟩

/-- Request with a one-byte tip. -/
def shortTipTx : GaslessTransaction := ⟨417834, 1, [1], [], [0], [], 0⟩

/-- Request whose tip receiver is the third-party address 5. -/
def badReceiverTx : GaslessTransaction := ⟨417834, 1, [1], [], badReceiverTip, [], 0⟩

/-- Request whose tip amount word exceeds 128 bits. -/
def bigAmountTx : GaslessTransaction := ⟨417834, 1, [1], [], bigAmountTip, [], 0⟩

/-- Request with an all-zero well-formed tip: receiver 0, amount 0. -/
def zeroTipTx : GaslessTransaction := ⟨417834, 1, [1], [], zeroTip, [], 0⟩

/-- Claim C4: whenever the profitability estimator reports false after gas
estimation, the pipeline terminates the request with the skip outcome
Ok none and the broadcast effect never occurs. -/
theorem unprofitable_skips_broadcast (env : ChainEnv) (a : Nat)
    (tx : GaslessTransaction) (hcmd : tx.cmd ≠ []) (tok amt rcv g p : Nat)
    (h0 : parse_address tx.tip 0 = .ok tok)
    (h1 : parse_u128 tx.tip 32 = .ok amt)
    (h2 : parse_address tx.tip 64 = .ok rcv)
    (hr : is_valid_receiver_address rcv a = true)
    (hprep : env.prepare = .ok ())
    (hg : env.estimateGas = .ok g)
    (hp : env.gasPrice = .ok p)
    (hnp : estimate_if_transaction_is_profitable amt tok g p env.oracle = false) :
    relay_transaction env a tx =
      (.ok none, [.prepareCall, .estimateGas, .gasPrice, .oracleFetch]) ∧
    Effect.broadcast ∉ (relay_transaction env a tx).2 := by
  have htip : tx.tip ≠ [] := by
    intro h
    have he : parse_address ([] : List Nat) 0 = .error "insufficient bytes for address" := rfl
    rw [h, he] at h0
    exact Except.noConfusion h0
  have hmain : relay_transaction env a tx =
      (.ok none, [.prepareCall, .estimateGas, .gasPrice, .oracleFetch]) := by
    simp [relay_transaction, hcmd, htip, h0, h1, h2, hr, relay_after_decode,
      hprep, hg, hp, hnp]
  refine ⟨hmain, ?_⟩
  rw [hmain]
  decide

/-- Witness for C4: with the all-zero tip, relayer address 0, gas estimate
21000, gas price 20000000000 and oracle value 0, the request is skipped
as unprofitable and nothing is broadcast. -/
theorem unprofitable_skips_broadcast_witness :
    relay_transaction sampleEnv 0 zeroTipTx =
      (.ok none, [.prepareCall, .estimateGas, .gasPrice, .oracleFetch]) ∧
    Effect.broadcast ∉ (relay_transaction sampleEnv 0 zeroTipTx).2 :=
  unprofitable_skips_broadcast sampleEnv 0 zeroTipTx (by decide)
    0 0 0 21000 20000000000 rfl rfl rfl rfl rfl rfl rfl rfl

/-- Claim C5: a nonempty tip shorter than 96 bytes always fails to decode
and the request ends with an error outcome and no chain-facing effect
(no partial decode result is acted on); likewise a tip whose amount word
has a nonzero byte among its high 16 bytes (a value exceeding 128 bits)
fails to decode. -/
theorem malformed_tip_decode_fails (env : ChainEnv) (a : Nat)
    (tx : GaslessTransaction) (hcmd : tx.cmd ≠ []) :
    (tx.tip ≠ [] → tx.tip.length < 96 →
      ∃ e, relay_transaction env a tx = (.error e, [])) ∧
    (96 ≤ tx.tip.length → ¬ ((tx.tip.drop 32).take 16).all (fun b => b == 0) →
      ∃ e, relay_transaction env a tx = (.error e, [])) := by
  constructor
  · intro htip hlen
    by_cases h32 : tx.tip.length < 32
    · refine ⟨"insufficient bytes for address", ?_⟩
      simp [relay_transaction, hcmd, htip, parse_address, h32]
    · by_cases h64 : tx.tip.length < 64
      · refine ⟨"insufficient bytes for u128", ?_⟩
        simp [relay_transaction, hcmd, htip, parse_address, parse_u128, h32, h64]
      · by_cases hz : ((tx.tip.drop 32).take 16).all (fun b => b == 0)
        · refine ⟨"insufficient bytes for address", ?_⟩
          simp [relay_transaction, hcmd, htip, parse_address, parse_u128,
            h32, h64, hz, hlen]
        · refine ⟨"value too large for u128", ?_⟩
          simp [relay_transaction, hcmd, htip, parse_address, parse_u128, h32, h64, hz]
  · intro hlen hz
    have htip : tx.tip ≠ [] := by
      intro h
      rw [h] at hlen
      simp at hlen
    have h32 : ¬ tx.tip.length < 32 := by omega
    have h64 : ¬ tx.tip.length < 64 := by omega
    refine ⟨"value too large for u128", ?_⟩
    simp [relay_transaction, hcmd, htip, parse_address, parse_u128, h32, h64, hz]

/-- Witness for C5: the one-byte tip fails to decode, and the 96-byte tip
whose amount word has a nonzero high byte fails to decode; both leave the
effect list empty. -/
theorem malformed_tip_decode_fails_witness :
    (∃ e, relay_transaction sampleEnv 0 shortTipTx = (.error e, [])) ∧
    (∃ e, relay_transaction sampleEnv 0 bigAmountTx = (.error e, [])) :=
  ⟨(malformed_tip_decode_fails sampleEnv 0 shortTipTx (by decide)).1
      (by decide) (by decide),
    (malformed_tip_decode_fails sampleEnv 0 bigAmountTx (by decide)).2
      (by decide) (by decide)⟩

/-- Claim C6: a request with an empty tip, and a request whose decoded tip
receiver is not accepted by the receiver policy, both end with the skip
outcome Ok none and an empty effect list: the call builder is not invoked,
no gas simulation runs, nothing is broadcast. -/
theorem empty_tip_and_invalid_receiver_skip (env : ChainEnv) (a : Nat)
    (tx : GaslessTransaction) (hcmd : tx.cmd ≠ []) :
    (tx.tip = [] → relay_transaction env a tx = (.ok none, [])) ∧
    (∀ tok amt rcv,
      parse_address tx.tip 0 = .ok tok →
      parse_u128 tx.tip 32 = .ok amt →
      parse_address tx.tip 64 = .ok rcv →
      is_valid_receiver_address rcv a = false →
      relay_transaction env a tx = (.ok none, [])) := by
  constructor
  · intro ht
    simp [relay_transaction, hcmd, ht]
  · intro tok amt rcv h0 h1 h2 hr
    have htip : tx.tip ≠ [] := by
      intro h
      have he : parse_address ([] : List Nat) 0 = .error "insufficient bytes for address" := rfl
      rw [h, he] at h0
      exact Except.noConfusion h0
    simp [relay_transaction, hcmd, htip, h0, h1, h2, hr]

/-- Witness for C6: the empty-tip request and the third-party-receiver
request are both skipped with no effect performed. -/
theorem empty_tip_and_invalid_receiver_skip_witness :
    relay_transaction sampleEnv 0 emptyTipTx = (.ok none, []) ∧
    relay_transaction sampleEnv 0 badReceiverTx = (.ok none, []) :=
  ⟨(empty_tip_and_invalid_receiver_skip sampleEnv 0 emptyTipTx (by decide)).1 rfl,
    (empty_tip_and_invalid_receiver_skip sampleEnv 0 badReceiverTx (by decide)).2
      0 0 5 rfl rfl rfl rfl⟩

/-- Claim C10: a request with an empty cmd byte sequence ends with the
empty-command error outcome and an empty effect list, whatever the tip
contains: the empty-cmd check precedes tip decoding, receiver validation
and every chain interaction. -/
theorem empty_cmd_error_precedes_tip (env : ChainEnv) (a : Nat)
    (tx : GaslessTransaction) (hcmd : tx.cmd = []) :
    relay_transaction env a tx = (.error "Empty transaction command data", []) := by
  simp [relay_transaction, hcmd]

/-- Witness for C10: a request with empty cmd and a nonempty malformed tip
is reported as an empty-command failure with no effect performed. -/
theorem empty_cmd_error_precedes_tip_witness :
    relay_transaction sampleEnv 0 emptyCmdTx =
      (.error "Empty transaction command data", []) :=
  empty_cmd_error_precedes_tip sampleEnv 0 emptyCmdTx rfl

/-- Counterexample to C7 as stated: with two resolved addresses for one
orchestrator URL, where the first returns a non-success HTTP status and
the second would serve one well-formed pending request, the poller
returns the error with an empty outcome list — the request behind the
second address is never processed in that cycle, because the source
returns the error from inside the per-address loop. -/
theorem address_failure_aborts_poll_counterexample :
    process_pending_transactions sampleEnv 0
        [.nonSuccess 500 "server error", .success [zeroTipTx]] =
      (.error "server error", []) := rfl

/-- Claim C7 as amended: a non-success HTTP response or a transport
failure at one resolved address aborts the whole poll of that
orchestrator URL — the poller returns that error at once, requests
fetched from earlier addresses were already processed, and later resolved
addresses are not visited in that cycle. -/
theorem address_failure_aborts_poll (renv : ChainEnv) (a : Nat) (m : String)
    (status : Nat) (rest : List FetchResult)
    (batches : List (List GaslessTransaction)) :
    process_pending_transactions renv a
        (batches.map FetchResult.success ++ FetchResult.nonSuccess status m :: rest) =
      (.error m,
        (batches.map
          (fun txs => txs.map (fun tx => (relay_transaction renv a tx).1))).flatten) ∧
    process_pending_transactions renv a
        (batches.map FetchResult.success ++ FetchResult.transportError m :: rest) =
      (.error m,
        (batches.map
          (fun txs => txs.map (fun tx => (relay_transaction renv a tx).1))).flatten) := by
  induction batches with
  | nil => exact ⟨rfl, rfl⟩
  | cons b bs ih =>
    refine ⟨?_, ?_⟩
    · simp [process_pending_transactions, ih.1]
    · simp [process_pending_transactions, ih.2]

/-- Claim C8 evaluation: the confirmation wait ignores the configuration —
for every options value, wait_for_transaction is given None as its
blocks_to_wait argument and the hardcoded 30-second client timeout; in
particular with the default options (timeout 10, confirmation_blocks 12)
the wait timeout differs from the configured timeout and the blocks
argument differs from the configured confirmation-block count. -/
theorem confirmation_wait_ignores_config :
    (∀ opts : RelayerOpts,
      wait_for_transaction_blocks_to_wait opts = none ∧
      wait_for_transaction_timeout_secs opts = 30) ∧
    wait_for_transaction_timeout_secs defaultRelayerOpts ≠ defaultRelayerOpts.timeout ∧
    wait_for_transaction_blocks_to_wait defaultRelayerOpts ≠
      some defaultRelayerOpts.confirmation_blocks :=
  ⟨fun _ => ⟨rfl, rfl⟩, by decide, by decide⟩

/-- Claim C9: per-request failures never abort the rest of a fetched
batch and never unwind into the poller result — when every fetch of an
orchestrator poll succeeds, the poller returns ok and the outcome list
contains exactly one outcome per request in order, whatever those
outcomes are; and each orchestrator in a relay-loop cycle is polled
with a result independent of the other orchestrators. -/
theorem per_request_and_poll_isolation :
    (∀ (renv : ChainEnv) (a : Nat) (batches : List (List GaslessTransaction)),
      process_pending_transactions renv a (batches.map FetchResult.success) =
        (.ok (),
          (batches.map
            (fun txs => txs.map (fun tx => (relay_transaction renv a tx).1))).flatten)) ∧
    (∀ (renv : ChainEnv) (a : Nat) (o : List FetchResult)
      (rest : List (List FetchResult)),
      relay_loop_cycle renv a (o :: rest) =
        process_pending_transactions renv a o :: relay_loop_cycle renv a rest) := by
  refine ⟨?_, fun renv a o rest => rfl⟩
  intro renv a batches
  induction batches with
  | nil => rfl
  | cons b bs ih => simp [process_pending_transactions, ih]

end IfiRelayer
